import Mathlib

/-
Verification of the BTgym server coordination core (btgym/server.py).

The embedding below models, directly from the source:
  - the control-mode dispatch loop of BTgymServer.run (lines 404-451),
  - the per-tick episode hook _BTgymAnalyzer.next (lines 84-161),
  - the data-acquisition retry loop BTgymServer.get_data (lines 277-330),
  - the trial-sample resolution step of run (lines 490-503),
  - the socket timeout configuration of run (lines 358-373).

Messages are Python dicts with optional keys; we model the keys the code
inspects (ctrl, mode, action, kwargs) as Option fields.  ZMQ REP socket
discipline (strict recv/send alternation) is modelled explicitly where the
code depends on it: a recv issued while a reply is still owed raises EFSM,
which we model as an error outcome.
-/

namespace BTgymSpec

/-- A message dict as inspected by the server: optional ctrl, mode, action
and kwargs keys.  kwargs is kept opaque (a string standing for the nested
dict) in control mode; the trial-config payload is modelled separately where
the code looks inside it. -/
structure Message where
  ctrl : Option String
  mode : Option String
  action : Option String
  kwargs : Option String
deriving DecidableEq

/-- Open/closed status of the two zmq channels owned by the server process:
self.socket/self.context (controller side, REP) and
self.data_socket/self.data_context (data-provider side, REQ). -/
structure ChannelState where
  ctrlSocketOpen : Bool
  ctrlContextAlive : Bool
  dataSocketOpen : Bool
  dataContextAlive : Bool
deriving DecidableEq

/-- Payloads the control-mode loop sends back over the controller socket:
plain strings, the episode_result dict, a rendering for a mode, or the
fixed usage-hint dict (which carries a ctrl key in the source). -/
inductive CPayload
  | text (s : String)
  | stat
  | rendering (mode : String)
  | hint
deriving DecidableEq

/-- What one iteration of the control-mode loop does with the session:
stay in control mode, break out into an episode (the _reset branch,
carrying the kwargs), shut the whole server down (the _stop branch), or
crash with an uncaught exception (KeyError on a _reset without kwargs). -/
inductive ControlOutcome
  | stay
  | startEpisode (kwargs : String)
  | shutdown
  | crash
deriving DecidableEq

/-- Diagnostic string sent when a control-mode message has no ctrl key
(server.py line 449). -/
def noCtrlDiag : String := "No ctrl key received. Hint: forgot to call reset()?"

/-- One iteration of the control-mode dispatch loop of BTgymServer.run
(server.py lines 407-451), from receiving service_input to the loop action
taken.  Returns the list of replies sent (each branch of the source sends
exactly one, except the KeyError crash which sends none), the loop outcome,
and the channel state after the iteration (_stop closes self.socket and
destroys self.context; nothing touches the data channel). -/
def controlStep (m : Message) (ch : ChannelState) :
    List CPayload × ControlOutcome × ChannelState :=
  match m.ctrl with
  | some c =>
    if c = "_stop" then
      ([CPayload.text "Exiting."], ControlOutcome.shutdown,
        { ch with ctrlSocketOpen := false, ctrlContextAlive := false })
    else if c = "_reset" then
      match m.kwargs with
      | some k =>
        ([CPayload.text ("Preparing new episode with kwargs: " ++ k)],
          ControlOutcome.startEpisode k, ch)
      | none => ([], ControlOutcome.crash, ch)
    else if c = "_getstat" then
      ([CPayload.stat], ControlOutcome.stay, ch)
    else if c = "_render" then
      match m.mode with
      | some mo => ([CPayload.rendering mo], ControlOutcome.stay, ch)
      | none => ([CPayload.hint], ControlOutcome.stay, ch)
    else
      ([CPayload.hint], ControlOutcome.stay, ch)
  | none => ([CPayload.text noCtrlDiag], ControlOutcome.stay, ch)

/-- All-channels-open state at session start. -/
def chOpen : ChannelState := ⟨true, true, true, true⟩

/-- Timeout options set on the two sockets (milliseconds; -1 is the zmq
unbounded sentinel). -/
structure TimeoutConfig where
  ctrlRcvTimeout : Int
  ctrlSndTimeout : Int
  dataRcvTimeout : Int
  dataSndTimeout : Int
deriving DecidableEq

/-- Default of the connect_timeout constructor argument
(server.py line 207). -/
def connectTimeoutDefault : Int := 90

/-- Socket timeout configuration performed by BTgymServer.run
(server.py lines 358-373): a local connect_timeout = 60 shadows the stored
constructor argument, which run never reads; the controller RCVTIMEO is the
unbounded sentinel -1 and the three remaining timeouts are
connect_timeout * 1000 milliseconds. -/
def runTimeouts (connect_timeout_arg : Int) : TimeoutConfig :=
  let connect_timeout : Int := 60
  { ctrlRcvTimeout := -1
    ctrlSndTimeout := connect_timeout * 1000
    dataRcvTimeout := connect_timeout * 1000
    dataSndTimeout := connect_timeout * 1000 }

/-- Per-tick inputs the hook reads from the engine: the termination flag
(strategy._get_done()), the info record (strategy.get_info()), and the raw
state / processed state / reward it snapshots on communicating ticks.
Values are abstract, represented as naturals; info records are tagged by
naturals. -/
structure TickEnv where
  is_done : Bool
  info : Nat
  raw_state : Nat
  state : Nat
  reward : Nat
deriving DecidableEq

/-- The back-up tuple stored for rendering (server.py line 150):
raw state, state, reward, termination flag, and the full info batch. -/
def Snapshot := Nat × Nat × Nat × Bool × List Nat
deriving DecidableEq

/-- Mutable state the hook touches across ticks: the analyzer's own
info_list and step_to_render, plus the strategy fields it reads and writes
(action, last_action, iteration, broker_message). -/
structure AnState where
  info_list : List Nat
  step_to_render : Option Snapshot
  action : String
  last_action : String
  iteration : Nat
  broker_message : String
deriving DecidableEq

/-- Payloads sent over the controller socket from inside an episode:
a rendering (built from the requested mode and the stored snapshot), the
fixed acknowledgement string sent on a _done request, and the gym-style
four-tuple. -/
inductive EPayload
  | rendering (mode : String) (snap : Option Snapshot)
  | doneAck
  | tuple (state reward : Nat) (done : Bool) (info : List Nat)
deriving DecidableEq

/-- How the inner ctrl loop of _BTgymAnalyzer.next (lines 112-131) ends:
a message without a ctrl key reached (the expected action message), a _done
request acknowledged, a recv attempted while a reply was still owed (any
other ctrl value sends nothing, so the next recv on the REP socket raises
EFSM), a _render without a mode key (KeyError), or the inbox exhausted at a
recv (the real socket would block; modelled as a distinct outcome). -/
inductive InnerTag
  | gotAction (msg : Message)
  | doneSig
  | efsm
  | modeKeyError
  | blocked
deriving DecidableEq

/-- The inner ctrl loop of _BTgymAnalyzer.next (lines 112-131), consuming
messages from the inbox.  While the current message carries a ctrl key:
_render replies with a rendering and receives again; _done replies with the
acknowledgement and leaves; any other ctrl value falls through without
sending, so the following recv violates the REP discipline.  acc
accumulates the replies sent so far; the returned list is the remaining
inbox. -/
def innerLoop (snap : Option Snapshot) :
    List Message → List EPayload → InnerTag × List EPayload × List Message
  | [], acc => (InnerTag.blocked, acc, [])
  | msg :: rest, acc =>
    match msg.ctrl with
    | none => (InnerTag.gotAction msg, acc, rest)
    | some c =>
      if c = "_render" then
        match msg.mode with
        | none => (InnerTag.modeKeyError, acc, rest)
        | some mo => innerLoop snap rest (acc ++ [EPayload.rendering mo snap])
      else if c = "_done" then
        (InnerTag.doneSig, acc ++ [EPayload.doneAck], rest)
      else
        (InnerTag.efsm, acc, rest)

/-- The communication gate of _BTgymAnalyzer.next (line 97): talk to the
controller only when the iteration counter is divisible by the skip_frame
stride or the episode is over. -/
def commGate (skip_frame iteration : Nat) (is_done : Bool) : Bool :=
  (iteration % skip_frame == 0) || is_done

/-- Error conditions that abort _BTgymAnalyzer.next with an exception:
the AssertionError on a ctrl-less message without an action key
(line 140), the zmq EFSM error raised by a recv issued while a reply was
owed, the KeyError on a _render without mode, and the blocked-recv model
artifact for an empty inbox. -/
inductive ErrKind
  | noAction
  | efsm
  | modeKey
  | blockedRecv
deriving DecidableEq

/-- Outcome of one invocation of the hook: a normal return, an early stop
(the episode ends: either natural termination after the reply, or a _done
request), or a raised exception. -/
inductive StepOutcome
  | normal
  | earlyStopped
  | error (e : ErrKind)
deriving DecidableEq

/-- Result of one invocation of the hook: the state afterwards (at the
raise point, for error outcomes), the payloads sent, the remaining inbox,
and the outcome. -/
structure NextOut where
  state : AnState
  sent : List EPayload
  rest : List Message
  outcome : StepOutcome
deriving DecidableEq

/-- The communicating branch of _BTgymAnalyzer.next (lines 99-153), after
the inner ctrl loop has run: on an action-carrying message, store it as
action and last_action, send the four-tuple whose info field is the
singleton of the last accumulated record (info = [self.info_list[-1]],
line 144), back up the full batch into step_to_render, clear info_list,
run early_stop when the termination flag is set, and do the iteration /
broker_message housekeeping; on a ctrl-less message without action raise
AssertionError; a _done request returns right after early_stop with no
housekeeping. -/
def afterComm (env : TickEnv) (s0 : AnState)
    (res : InnerTag × List EPayload × List Message) : NextOut :=
  let il := s0.info_list ++ [env.info]
  let s := { s0 with info_list := il, action := "hold" }
  match res with
  | (InnerTag.gotAction msg, acc, rest) =>
    match msg.action with
    | some act =>
      let s2 := { s with
        action := act, last_action := act,
        step_to_render :=
          some (env.raw_state, env.state, env.reward, env.is_done, il),
        info_list := [] }
      ⟨{ s2 with iteration := s2.iteration + 1, broker_message := "-" },
        acc ++ [EPayload.tuple env.state env.reward env.is_done
          [il.getLast (by simp [il])]],
        rest,
        if env.is_done then StepOutcome.earlyStopped else StepOutcome.normal⟩
    | none => ⟨s, acc, rest, StepOutcome.error ErrKind.noAction⟩
  | (InnerTag.doneSig, acc, rest) => ⟨s, acc, rest, StepOutcome.earlyStopped⟩
  | (InnerTag.efsm, acc, rest) => ⟨s, acc, rest, StepOutcome.error ErrKind.efsm⟩
  | (InnerTag.modeKeyError, acc, rest) =>
      ⟨s, acc, rest, StepOutcome.error ErrKind.modeKey⟩
  | (InnerTag.blocked, acc, rest) =>
      ⟨s, acc, rest, StepOutcome.error ErrKind.blockedRecv⟩

/-- One invocation of _BTgymAnalyzer.next (lines 84-161): read the
termination flag, append the tick's info record, default the action to
hold; when the gate is open run the exchange with the controller, otherwise
free-run with no communication and only the housekeeping. -/
def analyzerNext (skip_frame : Nat) (env : TickEnv) (s0 : AnState)
    (inbox : List Message) : NextOut :=
  if commGate skip_frame s0.iteration env.is_done then
    afterComm env s0 (innerLoop s0.step_to_render inbox [])
  else
    ⟨{ s0 with
        info_list := s0.info_list ++ [env.info], action := "hold",
        iteration := s0.iteration + 1, broker_message := "-" },
      [], inbox, StepOutcome.normal⟩

/-- The message dict sent from inside an episode to request a rendering. -/
def renderMsg (mo : String) : Message := ⟨some "_render", some mo, none, none⟩

/-- A bare action message as the controller sends during an episode. -/
def actionHoldMsg : Message := ⟨none, none, some "hold", none⟩

/-- A message dict with none of the recognised keys. -/
def emptyMsg : Message := ⟨none, none, none, none⟩

/-- Concrete tick inputs used in witnesses and counterexamples. -/
def envA : TickEnv := ⟨false, 10, 0, 0, 0⟩

/-- Concrete tick inputs used in witnesses and counterexamples. -/
def envB : TickEnv := ⟨false, 20, 1, 1, 5⟩

/-- A strategy/analyzer state at iteration 0 with an empty info batch. -/
def s0ex : AnState := ⟨[], none, "hold", "hold", 0, "-"⟩

/-- A strategy/analyzer state at iteration 1 with an empty info batch
(one free-running tick about to happen under skip_frame 2). -/
def sFree : AnState := ⟨[], none, "hold", "hold", 1, "-"⟩

/-- The trial_config dict passed to _get_data: the get_new flag the server
itself branches on (server.py line 490), plus the remaining
DataSampleConfig sampling parameters, kept abstract. -/
structure TrialConfig where
  get_new : Bool
  sample_params : Nat
deriving DecidableEq

/-- Requests the server sends over the data-provider channel:
the _get_data request (carrying the full trial_config as kwargs,
server.py line 291) and the _stop request (line 316). -/
inductive DMsg
  | getData (kwargs : TrialConfig)
  | stopMsg
deriving DecidableEq

/-- What a successful exchange with the data provider can carry: the
not-ready marker string inside ctrl, or a sample reply; commFail stands
for any non-ok status of _comm_with_timeout, which get_data turns into a
ConnectionError. -/
inductive DataReplyK
  | notReady
  | ready (sample : Nat)
  | commFail
deriving DecidableEq

/-- How get_data ends: with a sample, with a ConnectionError (provider
unreachable), or with the fatal timeout path (a _stop sent to the
provider, the server's own controller socket closed, RuntimeError
raised).  Each result records the requests sent on the data channel, in
order.  outOfFuel is the model artifact for exhausting the step budget. -/
inductive GetDataResult
  | sampleOk (sample : Nat) (trace : List DMsg)
  | unreachable (trace : List DMsg)
  | fatalTimeout (trace : List DMsg) (ownSocketClosed : Bool)
  | outOfFuel
deriving DecidableEq

/-- The retry loop of BTgymServer.get_data (server.py lines 286-323),
with the provider's replies and the sampled sleep durations supplied as
oracles (pause = random.random() * 2 in the source).  Each iteration
exchanges a _get_data request; a non-ok status raises ConnectionError; a
not-ready reply sleeps and accumulates the pause while wait has not
exceeded the 300-second budget (self.wait_for_data_reset), and otherwise
sends _stop to the provider, closes the server's own socket and raises
RuntimeError; any other reply leaves the loop with the sample.  fuel
bounds the recursion depth of the model. -/
def get_data_loop (kw : TrialConfig) (reply : Nat → DataReplyK)
    (pauses : Nat → ℚ) : Nat → Nat → ℚ → List DMsg → GetDataResult
  | 0, _, _, _ => GetDataResult.outOfFuel
  | fuel + 1, n, wait, tr =>
    let tr2 := tr ++ [DMsg.getData kw]
    match reply n with
    | DataReplyK.commFail => GetDataResult.unreachable tr2
    | DataReplyK.ready s => GetDataResult.sampleOk s tr2
    | DataReplyK.notReady =>
      if wait ≤ 300 then
        get_data_loop kw reply pauses fuel (n + 1) (wait + pauses n) tr2
      else
        GetDataResult.fatalTimeout (tr2 ++ [DMsg.stopMsg]) true

/-- Requests recorded by a get_data run. -/
def traceOf : GetDataResult → List DMsg
  | GetDataResult.sampleOk _ tr => tr
  | GetDataResult.unreachable tr => tr
  | GetDataResult.fatalTimeout tr _ => tr
  | GetDataResult.outOfFuel => []

/-- The condition under which run() fetches a new trial sample
(server.py line 490): freshness requested or nothing cached. -/
def trialFetchNeeded (cfg : TrialConfig) (cached : Option Nat) : Bool :=
  cfg.get_new || cached.isNone

/-- Data-channel requests produced by the trial-resolution step of a reset
(server.py lines 490-499): when a fetch is needed, the requests of the
get_data retry loop called with the full trial_config as kwargs; otherwise
the cached trial is reused and nothing is sent. -/
def resetDataMessages (cfg : TrialConfig) (cached : Option Nat)
    (reply : Nat → DataReplyK) (pauses : Nat → ℚ) (fuel : Nat) : List DMsg :=
  if trialFetchNeeded cfg cached then
    traceOf (get_data_loop cfg reply pauses fuel 0 0 [])
  else []

/-- A data provider that answers every _get_data immediately with a
sample. -/
def readyNow : Nat → DataReplyK := fun _ => DataReplyK.ready 0

/-- A data provider that answers every _get_data with the not-ready
marker. -/
def allNotReady : Nat → DataReplyK := fun _ => DataReplyK.notReady

/-- The last element of a list with a final element appended. -/
lemma getLast_append_singleton (l : List Nat) (a : Nat)
    (h : l ++ [a] ≠ []) : (l ++ [a]).getLast h = a :=
  List.getLast_concat l

/-- Running the inner ctrl loop with a non-empty reply accumulator only
prepends the accumulator to the replies it produces. -/
lemma innerLoop_acc (snap : Option Snapshot) (inbox : List Message) :
    ∀ acc : List EPayload,
      innerLoop snap inbox acc =
        ((innerLoop snap inbox []).1,
          acc ++ (innerLoop snap inbox []).2.1,
          (innerLoop snap inbox []).2.2) := by
  induction inbox with
  | nil => intro acc; simp [innerLoop]
  | cons msg rest ih =>
    intro acc
    cases hc : msg.ctrl with
    | none => simp [innerLoop, hc]
    | some c =>
      by_cases h1 : c = "_render"
      · subst h1
        cases hm : msg.mode with
        | none => simp [innerLoop, hc, hm]
        | some mo =>
          simp only [innerLoop, hc, hm, if_pos rfl]
          rw [ih (acc ++ [EPayload.rendering mo snap]),
            ih ([] ++ [EPayload.rendering mo snap])]
          simp
      · by_cases h2 : c = "_done"
        · subst h2
          simp [innerLoop, hc, h1]
        · simp [innerLoop, hc, h1, h2]

/-- Prepending well-formed render requests to the inbox only prepends the
corresponding renderings to the replies of the inner ctrl loop; the way it
ends and the remaining inbox are unchanged. -/
lemma innerLoop_render_requests (snap : Option Snapshot) (modes : List String)
    (inbox : List Message) (t : InnerTag) (sent0 : List EPayload)
    (r0 : List Message) (h : innerLoop snap inbox [] = (t, sent0, r0)) :
    innerLoop snap (modes.map renderMsg ++ inbox) []
      = (t, (modes.map fun mo => EPayload.rendering mo snap) ++ sent0, r0) := by
  induction modes with
  | nil => simpa using h
  | cons mo ms ih =>
    have hstep : innerLoop snap (renderMsg mo :: (ms.map renderMsg ++ inbox)) []
        = innerLoop snap (ms.map renderMsg ++ inbox)
            [EPayload.rendering mo snap] := by
      simp [innerLoop, renderMsg]
    simp only [List.map_cons, List.cons_append]
    rw [hstep, innerLoop_acc, ih]
    simp

/-- The inner ctrl loop always consumes at least one message from a
non-empty inbox. -/
lemma innerLoop_rest_length (snap : Option Snapshot) (inbox : List Message) :
    ∀ acc : List EPayload, inbox ≠ [] →
      (innerLoop snap inbox acc).2.2.length < inbox.length := by
  induction inbox with
  | nil => intro acc h; exact absurd rfl h
  | cons msg rest ih =>
    intro acc _
    cases hc : msg.ctrl with
    | none => simp [innerLoop, hc, Nat.lt_succ_self]
    | some c =>
      by_cases h1 : c = "_render"
      · subst h1
        cases hm : msg.mode with
        | none => simp [innerLoop, hc, hm, Nat.lt_succ_self]
        | some mo =>
          simp only [innerLoop, hc, hm, if_pos rfl]
          by_cases hr : rest = []
          · subst hr
            simp [innerLoop]
          · exact Nat.lt_trans (ih _ hr) (Nat.lt_succ_self _)
      · by_cases h2 : c = "_done"
        · subst h2
          simp [innerLoop, hc, h1, Nat.lt_succ_self]
        · simp [innerLoop, hc, h1, h2, Nat.lt_succ_self]

/-- afterComm treats the already-sent reply accumulator as a prefix: its
state, remaining inbox and outcome do not depend on it. -/
lemma afterComm_shift (env : TickEnv) (s0 : AnState) (t : InnerTag)
    (pre sent0 : List EPayload) (r : List Message) :
    afterComm env s0 (t, pre ++ sent0, r)
      = ⟨(afterComm env s0 (t, sent0, r)).state,
          pre ++ (afterComm env s0 (t, sent0, r)).sent,
          (afterComm env s0 (t, sent0, r)).rest,
          (afterComm env s0 (t, sent0, r)).outcome⟩ := by
  cases t with
  | gotAction msg =>
    cases ha : msg.action with
    | none => simp [afterComm, ha]
    | some act => simp [afterComm, ha]
  | doneSig => simp [afterComm]
  | efsm => simp [afterComm]
  | modeKeyError => simp [afterComm]
  | blocked => simp [afterComm]

/-- The remaining inbox reported by afterComm is the one the inner ctrl
loop left. -/
lemma afterComm_rest (env : TickEnv) (s0 : AnState)
    (res : InnerTag × List EPayload × List Message) :
    (afterComm env s0 res).rest = res.2.2 := by
  obtain ⟨t, acc, r⟩ := res
  cases t with
  | gotAction msg =>
    cases ha : msg.action with
    | none => simp [afterComm, ha]
    | some act => simp [afterComm, ha]
  | doneSig => simp [afterComm]
  | efsm => simp [afterComm]
  | modeKeyError => simp [afterComm]
  | blocked => simp [afterComm]

/-- Against an always-not-ready provider, once the fuel covers the number
of pauses needed to push the accumulated wait over the 300-second budget,
the retry loop ends on the fatal path: some number of _get_data requests
followed by a final _stop, with the server's own socket closed. -/
lemma get_data_fatal (kw : TrialConfig) (pauses : Nat → ℚ) (ε : ℚ)
    (hp : ∀ n, ε ≤ pauses n) :
    ∀ (m n : Nat) (wait : ℚ) (tr : List DMsg),
      (300 : ℚ) < wait + m * ε →
      ∃ k, 1 ≤ k ∧ k ≤ m + 1 ∧
        get_data_loop kw allNotReady pauses (m + 1) n wait tr
          = GetDataResult.fatalTimeout
              (tr ++ List.replicate k (DMsg.getData kw) ++ [DMsg.stopMsg])
              true := by
  intro m
  induction m with
  | zero =>
    intro n wait tr h
    have hw : ¬ wait ≤ 300 := by
      simp only [Nat.cast_zero, zero_mul, add_zero] at h
      linarith
    refine ⟨1, le_refl 1, le_refl 1, ?_⟩
    simp [get_data_loop, allNotReady, hw]
  | succ m ih =>
    intro n wait tr h
    by_cases hw : wait ≤ 300
    · have h2 : (300 : ℚ) < (wait + pauses n) + m * ε := by
        have hpn := hp n
        push_cast at h
        linarith [h]
      obtain ⟨k, hk1, hk2, hres⟩ :=
        ih (n + 1) (wait + pauses n) (tr ++ [DMsg.getData kw]) h2
      refine ⟨k + 1, by omega, by omega, ?_⟩
      have hstep : get_data_loop kw allNotReady pauses (m + 1 + 1) n wait tr
          = get_data_loop kw allNotReady pauses (m + 1) (n + 1)
              (wait + pauses n) (tr ++ [DMsg.getData kw]) := by
        simp [get_data_loop, allNotReady, hw]
      rw [hstep, hres]
      simp [List.replicate_succ]
    · refine ⟨1, le_refl 1, by omega, ?_⟩
      simp [get_data_loop, allNotReady, hw]

/-- C10: the connect_timeout constructor argument (default 90) has no
effect on any channel timeout: run() always configures the controller
receive timeout as the unbounded sentinel -1 and the other three timeouts
as 60000 ms, from a hard-coded local 60-second value. -/
theorem c10_connect_timeout_unused :
    ∀ t : Int, runTimeouts t = ⟨-1, 60000, 60000, 60000⟩
      ∧ runTimeouts t = runTimeouts connectTimeoutDefault := by
  intro t
  exact ⟨rfl, rfl⟩

/-- C1: in the control-mode loop, every well-formed message (a _reset must
carry kwargs, as the source formats them before replying) is answered with
exactly one reply before the next receive; the loop leaves control mode
only on _stop (shutdown) and _reset (episode start); every other message,
ctrl-bearing or not, is answered in place, keeps the channels untouched,
and leaves the session in control mode. -/
theorem c1_control_mode_alternation (m : Message) (ch : ChannelState)
    (hwf : m.ctrl = some "_reset" → m.kwargs.isSome = true) :
    ((controlStep m ch).1.length = 1)
    ∧ ((controlStep m ch).2.1 = ControlOutcome.shutdown ↔ m.ctrl = some "_stop")
    ∧ ((∃ k, (controlStep m ch).2.1 = ControlOutcome.startEpisode k) ↔
        m.ctrl = some "_reset")
    ∧ (m.ctrl ≠ some "_stop" → (controlStep m ch).2.2 = ch)
    ∧ ((controlStep m ch).2.1 = ControlOutcome.stay ↔
        (m.ctrl ≠ some "_stop" ∧ m.ctrl ≠ some "_reset")) := by
  rcases m with ⟨ctrl, mode, action, kwargs⟩
  cases ctrl with
  | none => simp [controlStep]
  | some c =>
    by_cases h1 : c = "_stop"
    · subst h1
      simp [controlStep]
    · by_cases h2 : c = "_reset"
      · subst h2
        have hk : kwargs.isSome = true := hwf rfl
        rcases kwargs with _ | k
        · simp at hk
        · simp [controlStep]
      · by_cases h3 : c = "_getstat"
        · subst h3
          simp [controlStep]
        · by_cases h4 : c = "_render"
          · subst h4
            cases mode with
            | none => simp [controlStep, h1, h2, h3]
            | some mo => simp [controlStep, h1, h2, h3]
          · simp [controlStep, h1, h2, h3, h4]

/-- Witness for C1 at the concrete input of a _getstat request on open
channels. -/
theorem c1_control_mode_alternation_witness :
    ((controlStep ⟨some "_getstat", none, none, none⟩ chOpen).1.length = 1)
    ∧ ((controlStep ⟨some "_getstat", none, none, none⟩ chOpen).2.1 =
          ControlOutcome.shutdown ↔
        (⟨some "_getstat", none, none, none⟩ : Message).ctrl = some "_stop")
    ∧ ((∃ k, (controlStep ⟨some "_getstat", none, none, none⟩ chOpen).2.1 =
          ControlOutcome.startEpisode k) ↔
        (⟨some "_getstat", none, none, none⟩ : Message).ctrl = some "_reset")
    ∧ ((⟨some "_getstat", none, none, none⟩ : Message).ctrl ≠ some "_stop" →
        (controlStep ⟨some "_getstat", none, none, none⟩ chOpen).2.2 = chOpen)
    ∧ ((controlStep ⟨some "_getstat", none, none, none⟩ chOpen).2.1 =
          ControlOutcome.stay ↔
        ((⟨some "_getstat", none, none, none⟩ : Message).ctrl ≠ some "_stop"
          ∧ (⟨some "_getstat", none, none, none⟩ : Message).ctrl ≠ some "_reset")) :=
  c1_control_mode_alternation ⟨some "_getstat", none, none, none⟩ chOpen (by decide)

/-- C9 counterexample: the claim says a _stop in control mode closes both
channels, but the source only runs self.socket.close() and
self.context.destroy() (lines 419-420): after the _stop iteration the
data-provider socket and its context are still alive, so it is false that
both channels end up closed. -/
theorem c9_counterexample :
    ((controlStep ⟨some "_stop", none, none, none⟩ chOpen).2.2.dataSocketOpen = true)
    ∧ ((controlStep ⟨some "_stop", none, none, none⟩ chOpen).2.2.dataContextAlive = true)
    ∧ ¬ ((controlStep ⟨some "_stop", none, none, none⟩ chOpen).2.2.dataSocketOpen = false
          ∧ (controlStep ⟨some "_stop", none, none, none⟩ chOpen).2.2.ctrlSocketOpen = false) := by
  refine ⟨rfl, rfl, ?_⟩
  intro h
  exact absurd h.1 (by decide)

/-- C9 amended: on a _stop in control mode the session replies with the
farewell string, terminates, and closes the controller channel (socket
closed, context destroyed); the data-provider channel is left untouched. -/
theorem c9_stop_closes_controller_channel (ch : ChannelState)
    (mo a k : Option String) :
    controlStep ⟨some "_stop", mo, a, k⟩ ch
      = ([CPayload.text "Exiting."], ControlOutcome.shutdown,
          { ch with ctrlSocketOpen := false, ctrlContextAlive := false }) := rfl

/-- C2 counterexample: under skip_frame 2, a free-running tick accumulates
info record 10 into the batch; on the next, communicated, tick the batch
accumulated since the previous communication is [10, 20], but the reply
sent carries info [20] (info = [self.info_list[-1]], line 144), not the
whole batch, so the claim that the reply batches all accumulated records
is false. -/
theorem c2_counterexample :
    (analyzerNext 2 envA sFree []).state.info_list = [10]
    ∧ (analyzerNext 2 envA sFree []).sent = []
    ∧ (analyzerNext 2 envB (analyzerNext 2 envA sFree []).state
        [actionHoldMsg]).state.info_list = []
    ∧ (analyzerNext 2 envB (analyzerNext 2 envA sFree []).state
        [actionHoldMsg]).sent = [EPayload.tuple 1 5 false [20]]
    ∧ (analyzerNext 2 envB (analyzerNext 2 envA sFree []).state
        [actionHoldMsg]).sent ≠ [EPayload.tuple 1 5 false [10, 20]] := by
  refine ⟨rfl, rfl, rfl, rfl, ?_⟩
  decide

/-- C2 amended: on every communicated tick answered with an action
message, the reply four-tuple carries as its info field the singleton of
the most recent info record only (the current tick's); the full batch
accumulated since the previous communication is stored into the
step_to_render back-up, and the internal batch is cleared after the
reply. -/
theorem c2_amended_singleton_info (skip_frame : Nat) (env : TickEnv)
    (s0 : AnState) (msg : Message) (rest : List Message) (act : String)
    (hg : commGate skip_frame s0.iteration env.is_done = true)
    (hc : msg.ctrl = none) (ha : msg.action = some act) :
    (analyzerNext skip_frame env s0 (msg :: rest)).sent
        = [EPayload.tuple env.state env.reward env.is_done [env.info]]
    ∧ (analyzerNext skip_frame env s0 (msg :: rest)).state.info_list = []
    ∧ (analyzerNext skip_frame env s0 (msg :: rest)).state.step_to_render
        = some (env.raw_state, env.state, env.reward, env.is_done,
            s0.info_list ++ [env.info])
    ∧ (analyzerNext skip_frame env s0 (msg :: rest)).rest = rest := by
  simp [analyzerNext, hg, innerLoop, hc, afterComm, ha, getLast_append_singleton]

/-- Witness for the amended C2 at a concrete communicated tick. -/
theorem c2_amended_singleton_info_witness :
    (analyzerNext 1 envB s0ex [actionHoldMsg]).sent
        = [EPayload.tuple envB.state envB.reward envB.is_done [envB.info]]
    ∧ (analyzerNext 1 envB s0ex [actionHoldMsg]).state.info_list = []
    ∧ (analyzerNext 1 envB s0ex [actionHoldMsg]).state.step_to_render
        = some (envB.raw_state, envB.state, envB.reward, envB.is_done,
            s0ex.info_list ++ [envB.info])
    ∧ (analyzerNext 1 envB s0ex [actionHoldMsg]).rest = [] :=
  c2_amended_singleton_info 1 envB s0ex actionHoldMsg [] "hold"
    (by decide) rfl rfl

/-- C3: on a communicating tick, any number of well-formed render requests
arriving before the action message are each answered with a rendering (for
the requested mode, from the stored snapshot) and change nothing else: the
resulting hook state (pending action, last action, tick counter, info
batch, snapshot), the remaining inbox and the outcome are exactly those of
the run without the render requests, and the replies are the renderings
followed by the replies of that run, so the next action message yields the
same four-tuple. -/
theorem c3_render_requests_transparent (skip_frame : Nat) (env : TickEnv)
    (s0 : AnState) (modes : List String) (m : Message) (rest : List Message)
    (hg : commGate skip_frame s0.iteration env.is_done = true) :
    (analyzerNext skip_frame env s0 (modes.map renderMsg ++ m :: rest)).state
        = (analyzerNext skip_frame env s0 (m :: rest)).state
    ∧ (analyzerNext skip_frame env s0 (modes.map renderMsg ++ m :: rest)).rest
        = (analyzerNext skip_frame env s0 (m :: rest)).rest
    ∧ (analyzerNext skip_frame env s0 (modes.map renderMsg ++ m :: rest)).outcome
        = (analyzerNext skip_frame env s0 (m :: rest)).outcome
    ∧ (analyzerNext skip_frame env s0 (modes.map renderMsg ++ m :: rest)).sent
        = (modes.map fun mo => EPayload.rendering mo s0.step_to_render)
          ++ (analyzerNext skip_frame env s0 (m :: rest)).sent := by
  obtain ⟨⟨t, sent0, r0⟩, hbase⟩ :
      ∃ x, innerLoop s0.step_to_render (m :: rest) [] = x := ⟨_, rfl⟩
  have hren := innerLoop_render_requests s0.step_to_render modes
    (m :: rest) t sent0 r0 hbase
  simp only [analyzerNext, hg, if_true]
  rw [hbase, hren, afterComm_shift]
  exact ⟨rfl, rfl, rfl, rfl⟩

/-- Witness for C3 at a concrete tick with one interleaved render
request. -/
theorem c3_render_requests_transparent_witness :
    (analyzerNext 1 envB s0ex (["human"].map renderMsg ++ actionHoldMsg :: [])).state
        = (analyzerNext 1 envB s0ex (actionHoldMsg :: [])).state
    ∧ (analyzerNext 1 envB s0ex (["human"].map renderMsg ++ actionHoldMsg :: [])).rest
        = (analyzerNext 1 envB s0ex (actionHoldMsg :: [])).rest
    ∧ (analyzerNext 1 envB s0ex (["human"].map renderMsg ++ actionHoldMsg :: [])).outcome
        = (analyzerNext 1 envB s0ex (actionHoldMsg :: [])).outcome
    ∧ (analyzerNext 1 envB s0ex (["human"].map renderMsg ++ actionHoldMsg :: [])).sent
        = (["human"].map fun mo => EPayload.rendering mo s0ex.step_to_render)
          ++ (analyzerNext 1 envB s0ex (actionHoldMsg :: [])).sent :=
  c3_render_requests_transparent 1 envB s0ex ["human"] actionHoldMsg []
    (by decide)

/-- C4: on every tick the hook defaults the pending action to hold, and it
talks to the controller if and only if the iteration counter is divisible
by the skip_frame stride or the termination flag is set: when the gate is
closed nothing is sent, nothing is consumed from the inbox and the run is
a normal free-running tick; when the gate is open the hook receives (it
consumes at least one message, or reaches the blocking receive on an empty
inbox). -/
theorem c4_skip_frame_gate (skip_frame : Nat) (env : TickEnv)
    (s0 : AnState) (inbox : List Message) (hskip : 0 < skip_frame) :
    (commGate skip_frame s0.iteration env.is_done = true ↔
      (s0.iteration % skip_frame = 0 ∨ env.is_done = true))
    ∧ (commGate skip_frame s0.iteration env.is_done = false →
        (analyzerNext skip_frame env s0 inbox).sent = []
        ∧ (analyzerNext skip_frame env s0 inbox).rest = inbox
        ∧ (analyzerNext skip_frame env s0 inbox).state.action = "hold"
        ∧ (analyzerNext skip_frame env s0 inbox).outcome = StepOutcome.normal)
    ∧ (commGate skip_frame s0.iteration env.is_done = true →
        (inbox = [] →
          (analyzerNext skip_frame env s0 inbox).outcome
            = StepOutcome.error ErrKind.blockedRecv)
        ∧ (inbox ≠ [] →
          (analyzerNext skip_frame env s0 inbox).rest.length < inbox.length)) := by
  refine ⟨by simp [commGate], ?_, ?_⟩
  · intro hgf
    simp [analyzerNext, hgf]
  · intro hg
    constructor
    · intro he
      subst he
      simp [analyzerNext, hg, innerLoop, afterComm]
    · intro hne
      have hrest : (analyzerNext skip_frame env s0 inbox).rest
          = (innerLoop s0.step_to_render inbox []).2.2 := by
        simp only [analyzerNext, hg, if_true]
        exact afterComm_rest env s0 _
      rw [hrest]
      exact innerLoop_rest_length s0.step_to_render inbox [] hne

/-- Witness for C4 at a concrete free-running tick (iteration 1,
skip_frame 2, not done): no reply, inbox untouched, action defaulted to
hold, normal outcome. -/
theorem c4_skip_frame_gate_witness :
    (analyzerNext 2 envA sFree [actionHoldMsg]).sent = []
    ∧ (analyzerNext 2 envA sFree [actionHoldMsg]).rest = [actionHoldMsg]
    ∧ (analyzerNext 2 envA sFree [actionHoldMsg]).state.action = "hold"
    ∧ (analyzerNext 2 envA sFree [actionHoldMsg]).outcome = StepOutcome.normal :=
  (c4_skip_frame_gate 2 envA sFree [actionHoldMsg] (by decide)).2.1 (by decide)

/-- C5: during an episode step, a message whose ctrl value is neither
_render nor _done makes the hook fall through both handlers without
sending a reply and issue another recv on the REP socket while a reply is
still owed; that recv raises the zmq EFSM protocol error, which propagates
to the caller and aborts the episode, rather than the message being
silently ignored. -/
theorem c5_unknown_ctrl_protocol_error (skip_frame : Nat) (env : TickEnv)
    (s0 : AnState) (msg : Message) (rest : List Message) (c : String)
    (hg : commGate skip_frame s0.iteration env.is_done = true)
    (hc : msg.ctrl = some c) (h1 : c ≠ "_render") (h2 : c ≠ "_done") :
    (analyzerNext skip_frame env s0 (msg :: rest)).outcome
        = StepOutcome.error ErrKind.efsm
    ∧ (analyzerNext skip_frame env s0 (msg :: rest)).sent = []
    ∧ (analyzerNext skip_frame env s0 (msg :: rest)).outcome
        ≠ StepOutcome.normal := by
  refine ⟨?_, ?_, ?_⟩ <;>
    simp [analyzerNext, hg, innerLoop, hc, h1, h2, afterComm]

/-- Witness for C5 at a concrete unknown in-episode control message. -/
theorem c5_unknown_ctrl_protocol_error_witness :
    (analyzerNext 1 envA s0ex [⟨some "_getstat", none, none, none⟩]).outcome
        = StepOutcome.error ErrKind.efsm
    ∧ (analyzerNext 1 envA s0ex [⟨some "_getstat", none, none, none⟩]).sent = []
    ∧ (analyzerNext 1 envA s0ex [⟨some "_getstat", none, none, none⟩]).outcome
        ≠ StepOutcome.normal :=
  c5_unknown_ctrl_protocol_error 1 envA s0ex ⟨some "_getstat", none, none, none⟩
    [] "_getstat" (by decide) rfl (by decide) (by decide)

/-- C6 counterexample: the claim says that in every session state a
message with neither ctrl nor action gets a diagnostic string reply with
no state transition; but at an in-episode tick the hook answers such a
message by raising AssertionError (line 140) with no reply at all, which
is fatal to the episode. -/
theorem c6_counterexample :
    (analyzerNext 1 envA sFree [emptyMsg]).outcome
        = StepOutcome.error ErrKind.noAction
    ∧ (analyzerNext 1 envA sFree [emptyMsg]).sent = []
    ∧ (analyzerNext 1 envA sFree [emptyMsg]).outcome ≠ StepOutcome.normal := by
  refine ⟨rfl, rfl, ?_⟩
  decide

/-- C6 amended: a message with no ctrl key is answered with the diagnostic
string and leaves the session in control mode when it arrives in control
mode; but when it arrives at an in-episode tick and also lacks an action
key, the hook raises AssertionError — no reply is sent and the episode
cannot continue. -/
theorem c6_amended_no_key_handling :
    (∀ (m : Message) (ch : ChannelState), m.ctrl = none →
      controlStep m ch = ([CPayload.text noCtrlDiag], ControlOutcome.stay, ch))
    ∧ (∀ (skip_frame : Nat) (env : TickEnv) (s0 : AnState) (msg : Message)
        (rest : List Message),
        commGate skip_frame s0.iteration env.is_done = true →
        msg.ctrl = none → msg.action = none →
        (analyzerNext skip_frame env s0 (msg :: rest)).outcome
            = StepOutcome.error ErrKind.noAction
        ∧ (analyzerNext skip_frame env s0 (msg :: rest)).sent = []) := by
  constructor
  · intro m ch hc
    rcases m with ⟨ctrl, mode, action, kwargs⟩
    cases hc
    rfl
  · intro skip_frame env s0 msg rest hg hc ha
    constructor <;>
      simp [analyzerNext, hg, innerLoop, hc, afterComm, ha]

/-- Witness for the amended C6: the control-mode part at a concrete
ctrl-less message, and the episode part at a concrete tick. -/
theorem c6_amended_no_key_handling_witness :
    (controlStep emptyMsg chOpen
        = ([CPayload.text noCtrlDiag], ControlOutcome.stay, chOpen))
    ∧ ((analyzerNext 1 envA sFree [emptyMsg]).outcome
          = StepOutcome.error ErrKind.noAction
        ∧ (analyzerNext 1 envA sFree [emptyMsg]).sent = []) :=
  ⟨c6_amended_no_key_handling.1 emptyMsg chOpen rfl,
    c6_amended_no_key_handling.2 1 envA sFree emptyMsg [] (by decide) rfl rfl⟩

/-- C7: when every exchange with the data provider succeeds but every
reply carries the not-ready marker, the retry loop sleeps one sampled
pause per attempt (each in [0, 2), as random.random() * 2 draws) and
accumulates the waits; provided the sleeps are bounded away from zero, the
loop terminates: there is a finite fuel under which the run ends on the
fatal path, having sent some positive number of _get_data requests
followed by a final _stop to the provider, closed the server's own socket
and raised RuntimeError. -/
theorem c7_data_retry_terminates (pauses : Nat → ℚ) (ε : ℚ)
    (kw : TrialConfig) (hε : 0 < ε) (hlo : ∀ n, ε ≤ pauses n)
    (hhi : ∀ n, pauses n < 2) :
    ∃ fuel k, 1 ≤ k ∧
      get_data_loop kw allNotReady pauses fuel 0 0 []
        = GetDataResult.fatalTimeout
            (List.replicate k (DMsg.getData kw) ++ [DMsg.stopMsg]) true := by
  obtain ⟨m, hm⟩ := exists_nat_gt ((300 : ℚ) / ε)
  have h : (300 : ℚ) < 0 + m * ε := by
    rw [div_lt_iff₀ hε] at hm
    linarith
  obtain ⟨k, hk1, _, hres⟩ := get_data_fatal kw pauses ε hlo m 0 0 [] h
  exact ⟨m + 1, k, hk1, by simpa using hres⟩

/-- Witness for C7 with constant one-second pauses. -/
theorem c7_data_retry_terminates_witness :
    ∃ fuel k, 1 ≤ k ∧
      get_data_loop ⟨true, 0⟩ allNotReady (fun _ => (1 : ℚ)) fuel 0 0 []
        = GetDataResult.fatalTimeout
            (List.replicate k (DMsg.getData ⟨true, 0⟩) ++ [DMsg.stopMsg])
            true :=
  c7_data_retry_terminates (fun _ => (1 : ℚ)) 1 ⟨true, 0⟩ one_pos
    (fun _ => le_refl 1) (fun _ => by norm_num)

/-- C8 counterexample: on a fresh session (no cached trial) against an
immediately-ready provider, a reset with get_new = false and one with
get_new = true each send exactly one _get_data request — but the requests
are not the same message, because the kwargs forwarded to the provider
(the full trial_config, server.py line 291 via line 494) carry the
differing get_new flag; so the two resets do not produce exactly the same
sequence of data-channel messages. -/
theorem c8_counterexample :
    resetDataMessages ⟨false, 0⟩ none readyNow (fun _ => (1 : ℚ)) 1
        = [DMsg.getData ⟨false, 0⟩]
    ∧ resetDataMessages ⟨true, 0⟩ none readyNow (fun _ => (1 : ℚ)) 1
        = [DMsg.getData ⟨true, 0⟩]
    ∧ resetDataMessages ⟨false, 0⟩ none readyNow (fun _ => (1 : ℚ)) 1
        ≠ resetDataMessages ⟨true, 0⟩ none readyNow (fun _ => (1 : ℚ)) 1 := by
  refine ⟨rfl, rfl, ?_⟩
  decide

/-- C8 amended: a trial sample is fetched from the data provider if and
only if get_new is requested or no trial is cached; on a fresh session
both get_new values therefore trigger a fetch and produce data-channel
message sequences of the same length and shape (a single _get_data request
against a ready provider), differing only in the get_new flag inside the
forwarded kwargs. -/
theorem c8_amended_fetch_condition (cfg : TrialConfig) (cached : Option Nat)
    (pauses : Nat → ℚ) :
    resetDataMessages cfg cached readyNow pauses 1
      = (if trialFetchNeeded cfg cached then [DMsg.getData cfg] else [])
    ∧ trialFetchNeeded cfg none = true
    ∧ (∀ r : Nat,
        (resetDataMessages ⟨false, r⟩ none readyNow pauses 1).length
          = (resetDataMessages ⟨true, r⟩ none readyNow pauses 1).length) := by
  refine ⟨?_, ?_, ?_⟩
  · by_cases h : trialFetchNeeded cfg cached
    · simp [resetDataMessages, h, get_data_loop, traceOf, readyNow]
    · simp [resetDataMessages, h]
  · simp [trialFetchNeeded]
  · intro r
    simp [resetDataMessages, trialFetchNeeded, get_data_loop, traceOf,
      readyNow]

end BTgymSpec
